import Mathlib

/-!
Verification development for the `@ajayos/server` facade (repository
`Ajayos/Server`): an Express-based HTTP server wrapper configured by a
single constructor options object.

The repository ships only the TypeScript declaration file
`src/index.d.ts` (with detailed behavioural doc comments), the README,
the API documentation, and usage examples; the implementation body
(`index.js`) is not part of the sources.  The definitions below are
therefore a shallow model of the documented behaviour: each definition's
doc comment records which part of the specification or of the declared
interface it is modelled from.  Middleware chains are lists of middleware
descriptors, callbacks are traces of the observable actions they perform,
and the lifecycle operations return an updated server state together with
the list of observable events they emit.
-/

namespace AjayosServer

/-- Console colors used by the `colors` library, as enumerated in the
`log` documentation of `src/index.d.ts` (red, yellow, green, magenta,
red background with white text). -/
inductive Color where
  | red
  | yellow
  | green
  | magenta
  | redBgWhite
deriving DecidableEq, Repr

/-- One line written to the console: either a color-coded message or a
separator line carrying no text. -/
inductive LineKind where
  | message (color : Color) (text : String)
  | separator
deriving DecidableEq, Repr

/-- Modelled from the spec: the recognized `type` values of `log`
(`src/index.d.ts` lines 209-224): each full name and its single-letter
alias. -/
def recognizedTypes : List String :=
  ["e", "error", "w", "warn", "i", "info", "d", "debug", "f", "fatal", "l", "line"]

/-- Modelled from the spec: normalization of the `type` argument of
`log` (`src/index.d.ts` lines 209-224).  A missing or unrecognized type
defaults to `info`; single-letter aliases map to the full names. -/
def normalizeType (ty : Option String) : String :=
  match ty with
  | none => "info"
  | some t =>
    if t = "e" ∨ t = "error" then "error"
    else if t = "w" ∨ t = "warn" then "warn"
    else if t = "i" ∨ t = "info" then "info"
    else if t = "d" ∨ t = "debug" then "debug"
    else if t = "f" ∨ t = "fatal" then "fatal"
    else if t = "l" ∨ t = "line" then "line"
    else "info"

/-- Modelled from the spec: the color associated with each normalized log
type (`src/index.d.ts`: error red, warn yellow, info green, debug
magenta, fatal red background with white text). -/
def typeColor (t : String) : Color :=
  if t = "error" then Color.red
  else if t = "warn" then Color.yellow
  else if t = "debug" then Color.magenta
  else if t = "fatal" then Color.redBgWhite
  else Color.green

/-- Modelled from the spec: `log(text?, type?)` writes a single console
line (`src/index.d.ts` lines 209-224, spec section 4.7).  The
implementation body is absent from the sources, so this follows the
documented behaviour: an undefined `text` logs a separator line, the
`line` type logs a separator line, and otherwise one message line is
written in the color of the normalized type.  The result is the list of
lines written. -/
def log (text : Option String) (ty : Option String) : List LineKind :=
  match text with
  | none => [LineKind.separator]
  | some s =>
    let t := normalizeType ty
    if t = "line" then [LineKind.separator]
    else [LineKind.message (typeColor t) s]

/-- Modelled from the spec: a construction-time flag for `cors`,
`helmet`, or `bodyParser` in the configuration: a boolean, or an options
object (spec section 3, `src/index.d.ts` lines 29-75).  An options
object is represented by an opaque numeric tag standing for the
pass-through options value. -/
inductive Flag where
  | boolFlag (b : Bool)
  | objOpts (o : Nat)
deriving DecidableEq, Repr

/-- A flag is truthy (activates its middleware) when it is `true` or any
options object, mirroring JavaScript truthiness of `boolean | object`. -/
def Flag.enabled : Flag → Bool
  | Flag.boolFlag b => b
  | Flag.objOpts _ => true

/-- The options carried by a flag: an options object passes itself
through; a boolean flag carries no options (library defaults apply). -/
def Flag.optsOf : Flag → Option Nat
  | Flag.boolFlag _ => none
  | Flag.objOpts o => some o

/-- A middleware descriptor registered on the routable application;
the argument is the optional options object it was registered with. -/
inductive Middleware where
  | corsMW (opts : Option Nat)
  | helmetMW (opts : Option Nat)
  | bodyParserMW (opts : Option Nat)
  | cookieParserMW
deriving DecidableEq, Repr

/-- Position of each middleware kind in the fixed registration sequence
CORS, Helmet, BodyParser, CookieParser (spec section 4.2). -/
def Middleware.rank : Middleware → Nat
  | Middleware.corsMW _ => 0
  | Middleware.helmetMW _ => 1
  | Middleware.bodyParserMW _ => 2
  | Middleware.cookieParserMW => 3

/-- TLS material supplied under the `options` configuration field
(`src/index.d.ts` lines 61-66); `key` or `cert` may be absent, which the
specification calls incomplete TLS material. -/
structure TLSOptions where
  key : Option String
  cert : Option String
deriving DecidableEq, Repr

/-- Trace events observable from the facade: console lines, waits,
port checks, bind/listen attempts, callback invocations, socket
closure, connection draining, raised errors and process exit. -/
inductive Event where
  | listenerCreated (tls : Bool)
  | socketBind (port : Nat) (tls : Bool)
  | listenBegin (port : Nat)
  | startCallback
  | logged (l : LineKind)
  | waited (ms : Nat)
  | portChecked (port : Nat)
  | errorRaised (code : String)
  | socketClosed
  | drainConnections
  | exited (code : Nat)
deriving DecidableEq, Repr

/-- The user-supplied configuration object (spec section 3,
`src/index.d.ts` interface `Config`): every field optional.  Callbacks
are modelled by the trace of events their bodies perform. -/
structure Config where
  port : Option Nat := none
  cors : Option Flag := none
  helmet : Option Flag := none
  bodyParser : Option Flag := none
  cookieParser : Option Bool := none
  options : Option TLSOptions := none
  onServerStart : Option (List Event) := none
  onServerError : Option (List Event) := none
deriving DecidableEq, Repr

/-- The configuration record held by the facade after the shallow merge
of the supplied fields over the defaults (spec section 3): port 8123,
all middleware flags false, TLS off. -/
structure MergedConfig where
  port : Nat
  cors : Flag
  helmet : Flag
  bodyParser : Flag
  cookieParser : Bool
  tls : Option (String × String)
  onStart : Option (List Event)
deriving DecidableEq, Repr

/-- Modelled from the spec: the shallow configuration merge performed at
construction (spec section 4.1 and the constructor remarks of
`src/index.d.ts` lines 157-177: port defaults to 8123; unspecified
fields fall back individually to the defaults of section 3). -/
def mergeConfig (c : Config) (tls : Option (String × String)) : MergedConfig :=
  { port := c.port.getD 8123
    cors := c.cors.getD (Flag.boolFlag false)
    helmet := c.helmet.getD (Flag.boolFlag false)
    bodyParser := c.bodyParser.getD (Flag.boolFlag false)
    cookieParser := c.cookieParser.getD false
    tls := tls
    onStart := c.onServerStart }

/-- Registration performed for one construction-time flag: nothing when
the flag is falsy, otherwise the middleware built from the flag's
options. -/
def flagMW (f : Flag) (mk : Option Nat → Middleware) : List Middleware :=
  if f.enabled then [mk f.optsOf] else []

/-- Modelled from the spec: `configureMiddleware` (`src/index.d.ts`
lines 178-189, spec section 4.2) registers onto the routable
application, in the fixed order, the CORS, Helmet, BodyParser and
CookieParser middleware that the merged configuration enables. -/
def configureMiddleware (c : MergedConfig) (chain : List Middleware) : List Middleware :=
  chain ++ flagMW c.cors Middleware.corsMW
        ++ flagMW c.helmet Middleware.helmetMW
        ++ flagMW c.bodyParser Middleware.bodyParserMW
        ++ (if c.cookieParser then [Middleware.cookieParserMW] else [])

/-- Modelled from the spec: the `cors(opts?)` activation method appends
the CORS middleware to the application's chain (spec section 4.2). -/
def corsCall (chain : List Middleware) (opts : Option Nat) : List Middleware :=
  chain ++ [Middleware.corsMW opts]

/-- Modelled from the spec: the `helmet(opts?)` activation method
appends the Helmet middleware to the application's chain. -/
def helmetCall (chain : List Middleware) (opts : Option Nat) : List Middleware :=
  chain ++ [Middleware.helmetMW opts]

/-- Modelled from the spec: the `bodyParser(opts?)` activation method
appends the body-parsing middleware to the application's chain. -/
def bodyParserCall (chain : List Middleware) (opts : Option Nat) : List Middleware :=
  chain ++ [Middleware.bodyParserMW opts]

/-- Modelled from the spec: the `cookie()` activation method appends the
cookie-parsing middleware to the application's chain. -/
def cookieCall (chain : List Middleware) : List Middleware :=
  chain ++ [Middleware.cookieParserMW]

/-- Follows the spec's words for the manual route: after construction,
call `cors()`, then `helmet()`, then `bodyParser()`, then `cookie()`,
each exactly when the corresponding configuration flag is truthy and
with the flag's options. -/
def manualActivation (c : MergedConfig) (chain : List Middleware) : List Middleware :=
  let s1 := if c.cors.enabled then corsCall chain c.cors.optsOf else chain
  let s2 := if c.helmet.enabled then helmetCall s1 c.helmet.optsOf else s1
  let s3 := if c.bodyParser.enabled then bodyParserCall s2 c.bodyParser.optsOf else s2
  if c.cookieParser then cookieCall s3 else s3


/-- Lifecycle states of the facade (spec section 4.3):
CREATED, STARTING, LISTENING, CLOSED. -/
inductive LState where
  | created
  | starting
  | listening
  | closed
deriving DecidableEq, Repr

/-- The facade's instance state after construction: merged
configuration, the middleware chain of the routable application, the
lifecycle state, and whether the listening socket is currently bound. -/
structure ServerSt where
  cfg : MergedConfig
  chain : List Middleware
  lifecycle : LState
  bound : Bool
deriving DecidableEq, Repr

/-- The error raised when construction rejects the configuration. -/
inductive ConfigError where
  | configurationError (msg : String)
deriving DecidableEq, Repr

/-- The error message for incomplete TLS material. -/
def tlsErrMsg : String := "TLS options require both key and cert"

/-- Modelled from the spec: the `SERVER` constructor (spec section 4.1,
`src/index.d.ts` lines 157-177; the implementation body is absent from
the sources).  If TLS material is supplied but lacks `key` or `cert`,
construction fails with a `ConfigurationError` and emits no event;
otherwise it merges the configuration over the defaults and creates the
(TLS or plain) listener object without binding it.  The result pairs
the constructed state (or the error) with the events emitted. -/
def construct (c : Config) : Except ConfigError ServerSt × List Event :=
  match c.options with
  | none =>
    (Except.ok { cfg := mergeConfig c none, chain := [],
                 lifecycle := LState.created, bound := false },
     [Event.listenerCreated false])
  | some o =>
    match o.key, o.cert with
    | some k, some ct =>
      (Except.ok { cfg := mergeConfig c (some (k, ct)), chain := [],
                   lifecycle := LState.created, bound := false },
       [Event.listenerCreated true])
    | _, _ => (Except.error (ConfigError.configurationError tlsErrMsg), [])

/-- Whether the merged configuration carries TLS material. -/
def MergedConfig.usesTLS (c : MergedConfig) : Bool := c.tls.isSome

/-- Whether the configuration supplies TLS material lacking `key` or
`cert`. -/
def tlsIncomplete (c : Config) : Bool :=
  match c.options with
  | none => false
  | some o => o.key.isNone || o.cert.isNone

/-- Modelled from the spec: the default `onServerStart` callback of the
`SERVER` class, whose declared behaviour is that it "logs the server
start message and port" (`src/index.d.ts` lines 201-208). -/
def defaultOnServerStart (port : Nat) : List Event :=
  [Event.logged (LineKind.message Color.green
      ("Server started on port " ++ toString port))]

/-- Modelled from the spec: the events of a successful `start()` (spec
section 4.3): the listener is bound to the configured port (TLS or
plain), listening begins, and `onServerStart` is invoked once — the
user-supplied callback when configured, else the default. -/
def startEvents (c : MergedConfig) : List Event :=
  [Event.socketBind c.port c.usesTLS, Event.listenBegin c.port, Event.startCallback]
    ++ c.onStart.getD (defaultOnServerStart c.port)

/-- Modelled from the spec: `start()` (spec sections 4.2 and 4.3,
`src/index.d.ts` lines 190-200): it first runs `configureMiddleware`,
then attempts to bind the listener on the configured port.  The bind
outcome is an oracle argument: `none` for success (transition to
LISTENING, `onServerStart` invoked once), `some code` for a failed bind
raising the error `code` toward `onServerError`. -/
def startServer (s : ServerSt) (bindErr : Option String) : ServerSt × List Event :=
  let s1 := { s with chain := configureMiddleware s.cfg s.chain,
                     lifecycle := LState.starting }
  match bindErr with
  | none => ({ s1 with lifecycle := LState.listening, bound := true },
             startEvents s.cfg)
  | some code => (s1, [Event.errorRaised code])

/-- Modelled from the spec: the default `onServerError` handler (spec
section 4.3, `src/index.d.ts` lines 225-237).  For the `EADDRINUSE`
code it logs, waits 5 seconds, re-checks port availability, and — once
availability is confirmed — retries binding exactly once; if the port
is still unavailable, or the retry fails, or for any other error code,
it logs and exits the process with status 1.  `portFree` tells whether
the re-check finds the port available and `retryOk` whether the single
retry succeeds. -/
def onServerErrorDefault (code : String) (port : Nat)
    (portFree retryOk : Bool) : List Event :=
  if code = "EADDRINUSE" then
    [Event.logged (LineKind.message Color.red
        ("Port " ++ toString port ++ " is already in use")),
     Event.waited 5000,
     Event.portChecked port] ++
    (if portFree then
       Event.socketBind port false ::
         (if retryOk then []
          else [Event.logged (LineKind.message Color.red "Failed to start server"),
                Event.exited 1])
     else [Event.exited 1])
  else
    [Event.logged (LineKind.message Color.red code), Event.exited 1]

/-- The number of bind attempts recorded in a trace. -/
def bindCount (tr : List Event) : Nat :=
  tr.countP (fun e =>
    match e with
    | Event.socketBind _ _ => true
    | _ => false)

/-- Modelled from the spec: `close()` (spec section 4.3,
`src/index.d.ts` lines 461-465): it closes the listening socket,
releasing the bound port, and terminates the owning process — a hard
shutdown with no drain period. -/
def closeServer (s : ServerSt) : ServerSt × List Event :=
  ({ s with bound := false, lifecycle := LState.closed },
   [Event.socketClosed, Event.exited 0])

/-- The server state constructed from the empty configuration (every
field omitted), used as a concrete evaluation point. -/
def mkDefaultServer : ServerSt :=
  { cfg := mergeConfig {} none, chain := [],
    lifecycle := LState.created, bound := false }

/-- Whether an event is a network bind or the beginning of listening. -/
def Event.isNetBind : Event → Bool
  | Event.socketBind _ _ => true
  | Event.listenBegin _ => true
  | _ => false

/-- Whether an event waits or drains connections. -/
def Event.isDrainOrWait : Event → Bool
  | Event.waited _ => true
  | Event.drainConnections => true
  | _ => false

/-- One address entry of an operating-system network interface: the IP
address string and the OS's internal/loopback flag. -/
structure IfAddr where
  address : String
  internal : Bool
deriving DecidableEq, Repr

/-- Modelled from the spec: `getActiveNetworkInterfaces()`
(`src/index.d.ts` lines 238-247, spec section 4.6): from the operating
system's interface list it keeps, per interface, the addresses not
flagged internal, and includes an interface only when at least one
non-internal address remains.  The OS snapshot is the argument, so the
query is a pure recomputation on every call. -/
def getActiveNetworkInterfaces (osIfs : List (String × List IfAddr)) :
    List (String × List String) :=
  osIfs.filterMap (fun p =>
    let good := (p.2.filter (fun a => ! a.internal)).map IfAddr.address
    if good.isEmpty then none else some (p.1, good))

end AjayosServer

namespace AjayosServer

/-- In a list of key-value pairs whose keys are nodup, membership of two
pairs with the same key forces the same value. -/
theorem nodup_keys_inj {β : Type} (l : List (String × β))
    (hnd : (l.map Prod.fst).Nodup) {n : String} {b b' : β}
    (h : (n, b) ∈ l) (h' : (n, b') ∈ l) : b = b' := by
  induction l with
  | nil => cases h
  | cons p t ih =>
    simp only [List.map_cons, List.nodup_cons] at hnd
    rcases List.mem_cons.mp h with h1 | h1 <;>
      rcases List.mem_cons.mp h' with h2 | h2
    · exact congrArg Prod.snd (h1.trans h2.symm)
    · exfalso
      apply hnd.1
      rw [← h1]
      exact List.mem_map.mpr ⟨(n, b'), h2, rfl⟩
    · exfalso
      apply hnd.1
      rw [← h2]
      exact List.mem_map.mpr ⟨(n, b), h1, rfl⟩
    · exact ih hnd.2 h1 h2

/-- Claim C8: every call `log(text, type)` writes exactly one console
line; the line is color-coded by type (error red, warn yellow, info
green, debug magenta, fatal red background); an unrecognized type is
treated as `info`; and the `line` type prints a separator line that
carries no text. -/
theorem log_single_line_colors (s : String) (text ty : Option String) :
    (log text ty).length = 1 ∧
    log (some s) (some "error") = [LineKind.message Color.red s] ∧
    log (some s) (some "warn") = [LineKind.message Color.yellow s] ∧
    log (some s) (some "info") = [LineKind.message Color.green s] ∧
    log (some s) (some "debug") = [LineKind.message Color.magenta s] ∧
    log (some s) (some "fatal") = [LineKind.message Color.redBgWhite s] ∧
    log (some s) (some "line") = [LineKind.separator] ∧
    (∀ u, u ∉ recognizedTypes → log (some s) (some u) = log (some s) (some "info")) := by
  refine ⟨?_, by rfl, by rfl, by rfl, by rfl, by rfl, by rfl, ?_⟩
  · rcases text with _ | s
    · rfl
    · simp only [log]
      split <;> rfl
  · intro u hu
    simp only [recognizedTypes, List.mem_cons, List.not_mem_nil, or_false] at hu
    push_neg at hu
    obtain ⟨h1, h2, h3, h4, h5, h6, h7, h8, h9, h10, h11, h12⟩ := hu
    simp [log, normalizeType, typeColor, h1, h2, h3, h4, h5, h6, h7, h8, h9, h10, h11, h12]

/-- Witness for C8 at concrete inputs: logging the text `"boot"` with the
unrecognized type `"verbose"` writes the same single green info line as
type `"info"`. -/
theorem log_single_line_colors_witness :
    (log (some "boot") (some "verbose")).length = 1 ∧
    log (some "boot") (some "verbose") = log (some "boot") (some "info") := by
  have h := log_single_line_colors "boot" (some "boot") (some "verbose")
  exact ⟨h.1, h.2.2.2.2.2.2.2 "verbose" (by decide)⟩

/-- Claim C1: for every configuration, enabling `cors`, `helmet`,
`bodyParser`, or `cookieParser` at construction (via
`configureMiddleware`) yields exactly the same middleware chain on the
routable application as calling the activation methods
`cors()`/`helmet()`/`bodyParser()`/`cookie()` manually after
construction, and in both cases the registrations appear in the fixed
sequence CORS, Helmet, BodyParser, CookieParser (strictly increasing
rank). -/
theorem configureMiddleware_eq_manualActivation (c : MergedConfig)
    (chain : List Middleware) :
    configureMiddleware c chain = manualActivation c chain ∧
    List.Chain' (fun a b => a.rank < b.rank) (configureMiddleware c []) := by
  constructor
  · cases hc : c.cors.enabled <;> cases hh : c.helmet.enabled <;>
      cases hb : c.bodyParser.enabled <;> cases hk : c.cookieParser <;>
      simp [configureMiddleware, manualActivation, flagMW, corsCall,
        helmetCall, bodyParserCall, cookieCall, hc, hh, hb, hk,
        List.append_assoc]
  · cases hc : c.cors.enabled <;> cases hh : c.helmet.enabled <;>
      cases hb : c.bodyParser.enabled <;> cases hk : c.cookieParser <;>
      simp [configureMiddleware, flagMW, hc, hh, hb, hk, Middleware.rank,
        List.Chain']

/-- Claim C10: the single-letter type aliases of `log` behave identically
to the full type names: `e` = `error`, `w` = `warn`, `i` = `info`,
`d` = `debug`, `f` = `fatal`, `l` = `line`. -/
theorem log_alias_equivalence (text : Option String) :
    log text (some "e") = log text (some "error") ∧
    log text (some "w") = log text (some "warn") ∧
    log text (some "i") = log text (some "info") ∧
    log text (some "d") = log text (some "debug") ∧
    log text (some "f") = log text (some "fatal") ∧
    log text (some "l") = log text (some "line") := by
  rcases text with _ | s <;>
    exact ⟨by rfl, by rfl, by rfl, by rfl, by rfl, by rfl⟩

/-- Evaluation of `construct` when no TLS material is supplied. -/
theorem construct_none (c : Config) (h : c.options = none) :
    construct c =
      (Except.ok { cfg := mergeConfig c none, chain := [],
                   lifecycle := LState.created, bound := false },
       [Event.listenerCreated false]) := by
  simp [construct, h]

/-- Evaluation of `construct` when complete TLS material is supplied. -/
theorem construct_complete (c : Config) (o : TLSOptions) (k ct : String)
    (h : c.options = some o) (hk : o.key = some k) (hc : o.cert = some ct) :
    construct c =
      (Except.ok { cfg := mergeConfig c (some (k, ct)), chain := [],
                   lifecycle := LState.created, bound := false },
       [Event.listenerCreated true]) := by
  simp [construct, h, hk, hc]

/-- Evaluation of `construct` when TLS material is supplied but lacks
`key` or `cert`. -/
theorem construct_incomplete (c : Config) (o : TLSOptions)
    (h : c.options = some o) (hinc : o.key = none ∨ o.cert = none) :
    construct c = (Except.error (ConfigError.configurationError tlsErrMsg), []) := by
  rcases hinc with hk | hc
  · simp [construct, h, hk]
  · rcases hk : o.key with _ | k <;> simp [construct, h, hk, hc]

/-- Claim C2: whenever the TLS field `options` is supplied but lacks
`key` or `cert`, construction fails with a `ConfigurationError` and
emits no event at all — in particular no socket is created or touched —
and every configuration whose TLS material is complete or absent (all
other fields may be omitted) constructs successfully. -/
theorem construct_tls_validation (c : Config) :
    (tlsIncomplete c = true →
      (construct c).1 = Except.error (ConfigError.configurationError tlsErrMsg) ∧
      (construct c).2 = []) ∧
    (tlsIncomplete c = false → ∃ s, (construct c).1 = Except.ok s) := by
  constructor
  · intro h
    rcases hop : c.options with _ | o
    · simp [tlsIncomplete, hop] at h
    · have hinc : o.key = none ∨ o.cert = none := by
        simpa [tlsIncomplete, hop, Option.isNone_iff_eq_none] using h
      rw [construct_incomplete c o hop hinc]
      exact ⟨rfl, rfl⟩
  · intro h
    rcases hop : c.options with _ | o
    · exact ⟨_, by rw [construct_none c hop]⟩
    · rcases hk : o.key with _ | k
      · exact absurd h (by simp [tlsIncomplete, hop, hk])
      rcases hc : o.cert with _ | ct
      · exact absurd h (by simp [tlsIncomplete, hop, hk, hc])
      exact ⟨_, by rw [construct_complete c o k ct hop hk hc]⟩

/-- Witness for C2: the configuration that supplies only a key (cert
missing) is rejected with no event, and the empty configuration
constructs successfully. -/
theorem construct_tls_validation_witness :
    ((construct { options := some { key := some "k", cert := none } }).1 =
        Except.error (ConfigError.configurationError tlsErrMsg) ∧
      (construct { options := some { key := some "k", cert := none } }).2 = []) ∧
    (∃ s, (construct {}).1 = Except.ok s) :=
  ⟨(construct_tls_validation
      { options := some { key := some "k", cert := none } }).1 (by rfl),
    (construct_tls_validation {}).2 (by rfl)⟩

/-- A successfully constructed server is unbound, in state CREATED,
with an empty middleware chain, and its merged port is the configured
port defaulting to 8123; without TLS material its merged configuration
is exactly `mergeConfig c none`. -/
theorem construct_ok_shape (c : Config) (s : ServerSt)
    (hs : (construct c).1 = Except.ok s) :
    s.bound = false ∧ s.lifecycle = LState.created ∧ s.chain = [] ∧
    s.cfg.port = c.port.getD 8123 ∧
    (c.options = none → s.cfg = mergeConfig c none) := by
  rcases hop : c.options with _ | o
  · rw [construct_none c hop] at hs
    simp only [Except.ok.injEq] at hs
    subst hs
    simp [mergeConfig]
  · rcases hk : o.key with _ | k
    · rw [construct_incomplete c o hop (Or.inl hk)] at hs
      cases hs
    · rcases hc : o.cert with _ | ct
      · rw [construct_incomplete c o hop (Or.inr hc)] at hs
        cases hs
      · rw [construct_complete c o k ct hop hk hc] at hs
        simp only [Except.ok.injEq] at hs
        subst hs
        simp [mergeConfig, hop]

/-- Claim C7: construction has no effect on the network: the
constructor's event trace contains no bind and no listen event, a
successfully constructed server is unbound in lifecycle state CREATED,
and binding/listening happen in `start()`, whose successful run emits a
bind event and leaves the server bound. -/
theorem construct_no_network_effect (c : Config) :
    ((construct c).2.all (fun e => ! e.isNetBind) = true) ∧
    (∀ s, (construct c).1 = Except.ok s →
      s.bound = false ∧ s.lifecycle = LState.created ∧
      (startServer s none).2.any (fun e => e.isNetBind) = true ∧
      (startServer s none).1.bound = true) := by
  constructor
  · rcases hop : c.options with _ | o
    · rw [construct_none c hop]
      rfl
    · rcases hk : o.key with _ | k
      · rw [construct_incomplete c o hop (Or.inl hk)]
        rfl
      · rcases hc : o.cert with _ | ct
        · rw [construct_incomplete c o hop (Or.inr hc)]
          rfl
        · rw [construct_complete c o k ct hop hk hc]
          rfl
  · intro s hs
    have h := construct_ok_shape c s hs
    refine ⟨h.1, h.2.1, ?_, ?_⟩
    · simp [startServer, startEvents, Event.isNetBind]
    · simp [startServer]

/-- Witness for C7: constructing with the empty configuration emits no
bind event, yields an unbound CREATED server, and that server's
successful `start()` emits a bind event and leaves it bound. -/
theorem construct_no_network_effect_witness :
    ((construct {}).2.all (fun e => ! e.isNetBind) = true) ∧
    ((mkDefaultServer).bound = false ∧
      (mkDefaultServer).lifecycle = LState.created ∧
      (startServer mkDefaultServer none).2.any (fun e => e.isNetBind) = true ∧
      (startServer mkDefaultServer none).1.bound = true) :=
  ⟨(construct_no_network_effect {}).1,
    (construct_no_network_effect {}).2 mkDefaultServer (by rfl)⟩

/-- Claim C6: for every configuration without TLS material, a
successful `start()` binds a plain (non-TLS) listener on the merged
port, which is the configured port, defaulting to 8123 when the `port`
field is unset. -/
theorem start_plain_listener_default_port (c : Config) (s : ServerSt)
    (h : c.options = none) (hs : (construct c).1 = Except.ok s) :
    s.cfg.usesTLS = false ∧
    Event.socketBind (c.port.getD 8123) false ∈ (startServer s none).2 ∧
    s.cfg.port = c.port.getD 8123 ∧
    (c.port = none → s.cfg.port = 8123) := by
  rw [construct_none c h] at hs
  simp only [Except.ok.injEq] at hs
  subst hs
  refine ⟨by rfl, ?_, by rfl, fun hp => by simp [mergeConfig, hp]⟩
  simp [startServer, startEvents, mergeConfig, MergedConfig.usesTLS]

/-- Witness for C6: the configuration with no TLS and no port binds a
plain listener on port 8123. -/
theorem start_plain_listener_default_port_witness :
    (mkDefaultServer).cfg.usesTLS = false ∧
    Event.socketBind 8123 false ∈ (startServer mkDefaultServer none).2 ∧
    (mkDefaultServer).cfg.port = 8123 := by
  have h := start_plain_listener_default_port {} mkDefaultServer (by rfl) (by rfl)
  exact ⟨h.1, h.2.1, h.2.2.2 (by rfl)⟩

/-- Claim C4: calling `close()` from the LISTENING (or STARTING) state
closes the listening socket — releasing the bound port — transitions to
CLOSED, and terminates the owning process; the shutdown trace contains
no wait and no connection-drain step, so in-flight requests get no
completion guarantee. -/
theorem close_hard_shutdown (s : ServerSt)
    (h : s.lifecycle = LState.listening ∨ s.lifecycle = LState.starting) :
    (closeServer s).1.bound = false ∧
    (closeServer s).1.lifecycle = LState.closed ∧
    Event.socketClosed ∈ (closeServer s).2 ∧
    Event.exited 0 ∈ (closeServer s).2 ∧
    (closeServer s).2.all (fun e => ! e.isDrainOrWait) = true := by
  refine ⟨by rfl, by rfl, ?_, ?_, by rfl⟩ <;>
    simp [closeServer]

/-- Witness for C4: closing the default server once it is listening and
bound releases the socket, reaches CLOSED, exits the process, and
neither waits nor drains. -/
theorem close_hard_shutdown_witness :
    (closeServer (startServer mkDefaultServer none).1).1.bound = false ∧
    (closeServer (startServer mkDefaultServer none).1).1.lifecycle = LState.closed ∧
    Event.socketClosed ∈ (closeServer (startServer mkDefaultServer none).1).2 ∧
    Event.exited 0 ∈ (closeServer (startServer mkDefaultServer none).1).2 ∧
    (closeServer (startServer mkDefaultServer none).1).2.all
      (fun e => ! e.isDrainOrWait) = true :=
  close_hard_shutdown (startServer mkDefaultServer none).1 (Or.inl (by rfl))

/-- Claim C3: the default `onServerError` handler, on an `EADDRINUSE`
error, first logs, waits the fixed 5-second delay, and re-checks port
availability; it performs at most one bind retry, exactly one when the
re-check confirms availability; if that retry fails it logs and exits
with the non-zero status 1; and for any other error code it logs and
exits with status 1 with no retry at all. -/
theorem onServerError_retry_once (code : String) (port : Nat)
    (portFree retryOk : Bool) :
    ((onServerErrorDefault "EADDRINUSE" port portFree retryOk).take 3 =
      [Event.logged (LineKind.message Color.red
          ("Port " ++ toString port ++ " is already in use")),
       Event.waited 5000, Event.portChecked port]) ∧
    bindCount (onServerErrorDefault code port portFree retryOk) ≤ 1 ∧
    (portFree = true →
      bindCount (onServerErrorDefault "EADDRINUSE" port portFree retryOk) = 1) ∧
    (portFree = true → retryOk = false →
      Event.exited 1 ∈ onServerErrorDefault "EADDRINUSE" port portFree retryOk) ∧
    (portFree = false →
      Event.exited 1 ∈ onServerErrorDefault "EADDRINUSE" port portFree retryOk) ∧
    (code ≠ "EADDRINUSE" →
      onServerErrorDefault code port portFree retryOk =
        [Event.logged (LineKind.message Color.red code), Event.exited 1] ∧
      bindCount (onServerErrorDefault code port portFree retryOk) = 0) ∧
    (1 : Nat) ≠ 0 := by
  refine ⟨?_, ?_, ?_, ?_, ?_, ?_, one_ne_zero⟩
  · cases portFree <;> cases retryOk <;> rfl
  · by_cases hc : code = "EADDRINUSE"
    · subst hc
      cases portFree <;> cases retryOk <;> simp [onServerErrorDefault, bindCount]
    · simp [onServerErrorDefault, hc, bindCount]
  · intro hp
    subst hp
    cases retryOk <;> simp [onServerErrorDefault, bindCount]
  · intro hp hr
    subst hp
    subst hr
    simp [onServerErrorDefault]
  · intro hp
    subst hp
    cases retryOk <;> simp [onServerErrorDefault]
  · intro hc
    refine ⟨by simp [onServerErrorDefault, hc], by simp [onServerErrorDefault, hc, bindCount]⟩

/-- Witness for C3 at concrete inputs: on `EADDRINUSE` at port 3002
with the port found free but the retry failing, the handler logs, waits
5 seconds, re-checks, binds exactly once and exits with 1; on the
distinct code `ECONNRESET` it logs and exits 1 with no bind attempt. -/
theorem onServerError_retry_once_witness :
    ((onServerErrorDefault "EADDRINUSE" 3002 true false).take 3 =
      [Event.logged (LineKind.message Color.red "Port 3002 is already in use"),
       Event.waited 5000, Event.portChecked 3002]) ∧
    bindCount (onServerErrorDefault "EADDRINUSE" 3002 true false) = 1 ∧
    Event.exited 1 ∈ onServerErrorDefault "EADDRINUSE" 3002 true false ∧
    (onServerErrorDefault "ECONNRESET" 3002 true false =
      [Event.logged (LineKind.message Color.red "ECONNRESET"), Event.exited 1] ∧
     bindCount (onServerErrorDefault "ECONNRESET" 3002 true false) = 0) := by
  have h1 := onServerError_retry_once "EADDRINUSE" 3002 true false
  have h2 := onServerError_retry_once "ECONNRESET" 3002 true false
  exact ⟨h1.1, h1.2.2.1 rfl, h1.2.2.2.1 rfl rfl, h2.2.2.2.2.2.1 (by decide)⟩

/-- Counterexample to C5 as stated: the default `onServerStart`
callback of the class is not a no-op — evaluated at the default port it
performs a console log of the server start message and port, so its
action trace is nonempty. -/
theorem defaultOnServerStart_not_noop :
    defaultOnServerStart 8123 ≠ [] := by
  simp [defaultOnServerStart]

/-- Claim C5 (amended): the default `onServerStart` callback — used
when the configuration does not supply one — logs the server start
message and port in a single console line, and it is invoked exactly
once, when the listener successfully starts listening, and not at all
on a failed bind. -/
theorem onServerStart_default_invoked_once (s : ServerSt) (port : Nat)
    (h : s.cfg.onStart = none) :
    (defaultOnServerStart port).length = 1 ∧
    defaultOnServerStart port =
      [Event.logged (LineKind.message Color.green
          ("Server started on port " ++ toString port))] ∧
    (startServer s none).2.count Event.startCallback = 1 ∧
    (startServer s none).2.drop 3 = defaultOnServerStart s.cfg.port ∧
    (∀ code, (startServer s (some code)).2.count Event.startCallback = 0) := by
  refine ⟨by rfl, by rfl, ?_, ?_, ?_⟩
  · simp [startServer, startEvents, h, defaultOnServerStart, List.count_cons]
  · simp [startServer, startEvents, h]
  · intro code
    simp [startServer, List.count_cons]

/-- Witness for C5 (amended): for the default server (no configured
callback) at port 8123, the default callback is the single start-log
line, invoked exactly once by a successful `start()` and zero times on
a bind failure. -/
theorem onServerStart_default_invoked_once_witness :
    (defaultOnServerStart 8123).length = 1 ∧
    (startServer mkDefaultServer none).2.count Event.startCallback = 1 ∧
    (startServer mkDefaultServer (some "EADDRINUSE")).2.count
      Event.startCallback = 0 := by
  have h := onServerStart_default_invoked_once mkDefaultServer 8123 (by rfl)
  exact ⟨h.1, h.2.2.1, h.2.2.2.2 "EADDRINUSE"⟩

/-- Characterization of membership in the result of
`getActiveNetworkInterfaces`: every entry comes from an input interface
and carries exactly its non-internal addresses, nonempty and in input
order. -/
theorem mem_getActiveNetworkInterfaces (osIfs : List (String × List IfAddr))
    (n : String) (vs : List String)
    (h : (n, vs) ∈ getActiveNetworkInterfaces osIfs) :
    ∃ as, (n, as) ∈ osIfs ∧
      vs = (as.filter (fun a => ! a.internal)).map IfAddr.address ∧ vs ≠ [] := by
  induction osIfs with
  | nil => cases h
  | cons p t ih =>
    rcases p with ⟨m, bs⟩
    by_cases hg : ((bs.filter (fun a => ! a.internal)).map IfAddr.address).isEmpty = true
    · have hrw : getActiveNetworkInterfaces ((m, bs) :: t) =
          getActiveNetworkInterfaces t := by
        simp only [getActiveNetworkInterfaces, List.filterMap_cons]
        rw [if_pos hg]
      rw [hrw] at h
      rcases ih h with ⟨as, h1, h2, h3⟩
      exact ⟨as, List.mem_cons_of_mem _ h1, h2, h3⟩
    · have hrw : getActiveNetworkInterfaces ((m, bs) :: t) =
          (m, (bs.filter (fun a => ! a.internal)).map IfAddr.address) ::
            getActiveNetworkInterfaces t := by
        simp only [getActiveNetworkInterfaces, List.filterMap_cons]
        rw [if_neg hg]
      rw [hrw] at h
      rcases List.mem_cons.mp h with h1 | h1
      · injection h1 with e1 e2
        subst e1
        subst e2
        refine ⟨bs, List.mem_cons_self _ _, rfl, ?_⟩
        intro hnil
        rw [hnil] at hg
        exact hg rfl
      · rcases ih h1 with ⟨as, k1, k2, k3⟩
        exact ⟨as, List.mem_cons_of_mem _ k1, k2, k3⟩

/-- Claim C9: the mapping returned by `getActiveNetworkInterfaces`
never contains an interface all of whose address entries the operating
system flags internal (in particular no loopback interface); every key
of the result is the name of an input interface and its value is that
interface's non-internal addresses in their original order, nonempty;
the result is a pure function of the OS snapshot, recomputed per call
with no side effect. -/
theorem getActiveNetworkInterfaces_no_internal
    (osIfs : List (String × List IfAddr))
    (hnd : (osIfs.map Prod.fst).Nodup) :
    (∀ n as, (n, as) ∈ osIfs → as.all (fun a => a.internal) = true →
      n ∉ (getActiveNetworkInterfaces osIfs).map Prod.fst) ∧
    (∀ n vs, (n, vs) ∈ getActiveNetworkInterfaces osIfs →
      ∃ as, (n, as) ∈ osIfs ∧
        vs = (as.filter (fun a => ! a.internal)).map IfAddr.address ∧
        vs ≠ []) := by
  constructor
  · intro n as hmem hall hcontra
    rcases List.mem_map.mp hcontra with ⟨q, hq, hfst⟩
    rcases q with ⟨n2, vs⟩
    have hn : n2 = n := hfst
    subst hn
    rcases mem_getActiveNetworkInterfaces osIfs n2 vs hq with ⟨as2, h1, h2, h3⟩
    have heq : as2 = as := nodup_keys_inj osIfs hnd h1 hmem
    subst heq
    apply h3
    have hf : as2.filter (fun a => ! a.internal) = [] := by
      rw [List.filter_eq_nil_iff]
      intro a ha
      simp [List.all_eq_true.mp hall a ha]
    rw [h2, hf]
    rfl
  · intro n vs h
    exact mem_getActiveNetworkInterfaces osIfs n vs h

/-- Witness for C9: on a two-interface snapshot where `lo` is fully
internal and `eth0` has one internal and one external address, the
result omits `lo` and maps `eth0` to exactly its external address. -/
theorem getActiveNetworkInterfaces_no_internal_witness :
    "lo" ∉ (getActiveNetworkInterfaces
      [("lo", [{ address := "127.0.0.1", internal := true }]),
       ("eth0", [{ address := "127.0.0.2", internal := true },
                 { address := "192.168.1.7", internal := false }])]).map Prod.fst ∧
    ∃ as, ("eth0", as) ∈
        [("lo", [({ address := "127.0.0.1", internal := true } : IfAddr)]),
         ("eth0", [{ address := "127.0.0.2", internal := true },
                   { address := "192.168.1.7", internal := false }])] ∧
      ["192.168.1.7"] = (as.filter (fun a => ! a.internal)).map IfAddr.address := by
  have h := getActiveNetworkInterfaces_no_internal
    [("lo", [{ address := "127.0.0.1", internal := true }]),
     ("eth0", [{ address := "127.0.0.2", internal := true },
               { address := "192.168.1.7", internal := false }])] (by decide)
  refine ⟨h.1 "lo" [{ address := "127.0.0.1", internal := true }]
      (by decide) (by decide), ?_⟩
  rcases h.2 "eth0" ["192.168.1.7"] (by decide) with ⟨as, hmem, heq, _⟩
  exact ⟨as, hmem, heq⟩

end AjayosServer
